import Mathlib

/-!
Shallow embedding of the quota/rate-limiting core of the Dream-Maker backend
(`backend.js`): the sqlite `attempts` table, the helpers `canGenerate`,
`getStatus` and `updateAttemptsAndGetStatus`, and the two HTTP routes
`GET /api/status` and `POST /api/generate`.

Timestamps and counters are JavaScript numbers holding exact integers
(millisecond epoch times and small counts), so they are modelled as `Int`;
the table is a partial map from `userId` to its single row, and each
database-touching operation takes the current time explicitly and returns
the value it resolves together with the table state it leaves behind.
-/

namespace DreamMaker

/-- Configuration constant `MAX_ATTEMPTS = 20` from backend.js. -/
def MAX_ATTEMPTS : Int := 20

/-- Configuration constant `COOLDOWN_PERIOD = 24 * 60 * 60 * 1000` ms. -/
def COOLDOWN_PERIOD : Int := 24 * 60 * 60 * 1000

/-- One row of the sqlite table `attempts (userId TEXT PRIMARY KEY,
attempts INTEGER, lastAttempt INTEGER)`; the key is the map index. -/
structure Row where
  attempts : Int
  lastAttempt : Int
deriving Repr, DecidableEq

/-- The `attempts` table: at most one row per `userId` (primary key), so a
partial map from userId to row. -/
def Store := String → Option Row

/-- The table before any request was served. -/
def emptyStore : Store := fun _ => none

/-- Writing one row at one key: models both the
`INSERT INTO attempts ... VALUES (?, ...)` and the
`UPDATE attempts SET ... WHERE userId = ?` statements of backend.js. -/
def Store.set (s : Store) (u : String) (r : Row) : Store :=
  fun v => if v = u then some r else s v

/-- JavaScript `x || 0` applied to an integer value: of the numbers only
`0` (and `NaN`, which never arises here) is falsy. -/
def jsOrZero (a : Int) : Int := if a = 0 then 0 else a

/-- JavaScript truthiness of a possibly-absent string (`!x` is true exactly
when the field is missing or the empty string). -/
def jsTruthyStr : Option String → Bool
  | none => false
  | some s => !(s == "")

/-- `canGenerate(userId)` from backend.js: reads the user's row, answers
whether a new generation is allowed, and performs the lazy reset
(`UPDATE attempts SET attempts = 0`) when the cooldown has elapsed.
Returns the resolved boolean together with the table it leaves behind. -/
def canGenerate (store : Store) (now : Int) (userId : String) : Bool × Store :=
  match store userId with
  | none => (true, store)
  | some row =>
    let elapsed := now - row.lastAttempt
    if COOLDOWN_PERIOD ≤ elapsed then
      (true, Store.set store userId { row with attempts := 0 })
    else
      (decide (jsOrZero row.attempts < MAX_ATTEMPTS), store)

/-- The status object resolved by `getStatus`, with the fields in the order
backend.js builds them. -/
structure Status where
  attemptsUsed : Int
  remainingAttempts : Int
  msUntilReset : Int
  resetAt : Int
deriving Repr, DecidableEq

/-- `getStatus(userId)` from backend.js: no row gives the fresh-window
shape; an elapsed cooldown performs the lazy reset and gives the same
zeroed shape; otherwise the in-window figures are computed from the row. -/
def getStatus (store : Store) (now : Int) (userId : String) : Status × Store :=
  match store userId with
  | none =>
    ({ attemptsUsed := 0, remainingAttempts := MAX_ATTEMPTS,
       msUntilReset := 0, resetAt := now }, store)
  | some row =>
    let elapsed := now - row.lastAttempt
    if COOLDOWN_PERIOD ≤ elapsed then
      ({ attemptsUsed := 0, remainingAttempts := MAX_ATTEMPTS,
         msUntilReset := 0, resetAt := now },
       Store.set store userId { row with attempts := 0 })
    else
      let msUntilReset := COOLDOWN_PERIOD - elapsed
      ({ attemptsUsed := jsOrZero row.attempts,
         remainingAttempts := max 0 (MAX_ATTEMPTS - jsOrZero row.attempts),
         msUntilReset := msUntilReset,
         resetAt := now + msUntilReset }, store)

/-- `updateAttemptsAndGetStatus(userId)` from backend.js: the sqlite upsert
`INSERT ... VALUES (?, 1, ?) ON CONFLICT(userId) DO UPDATE SET
attempts = attempts + 1, lastAttempt = ?`, followed by `getStatus`. -/
def updateAttemptsAndGetStatus (store : Store) (now : Int) (userId : String) :
    Status × Store :=
  let upserted : Store :=
    match store userId with
    | none => Store.set store userId { attempts := 1, lastAttempt := now }
    | some row =>
        Store.set store userId { attempts := row.attempts + 1, lastAttempt := now }
  getStatus upserted now userId

/-- Responses of `GET /api/status` that matter to the claims: the 400 on a
missing `userId`, and the 200 body `{maxAttempts, ...status}`. -/
inductive StatusResponse where
  | badRequest (error : String)
  | ok (maxAttempts : Int) (status : Status)
deriving Repr, DecidableEq

/-- The `GET /api/status` route of backend.js. -/
def statusHandler (store : Store) (now : Int) (userId : Option String) :
    StatusResponse × Store :=
  if !jsTruthyStr userId then
    (StatusResponse.badRequest "Missing userId", store)
  else
    let g := getStatus store now (userId.getD "")
    (StatusResponse.ok MAX_ATTEMPTS g.1, g.2)

/-- Outcomes of `POST /api/generate` up to the point where it hands over to
the external Runware call: 400 on missing fields, 500 on a missing API key,
403 with an error message and the status fields on quota exceeded, and
otherwise the attempt is recorded and the request proceeds to the external
call carrying `statusAfterInc`. -/
inductive GenResponse where
  | badRequest (error : String)
  | misconfigured (error : String)
  | quotaExceeded (error : String) (maxAttempts : Int) (status : Status)
  | proceed (maxAttempts : Int) (statusAfterInc : Status)
deriving Repr, DecidableEq

/-- The `POST /api/generate` route of backend.js, up to the external call.
`keyPresent` is the truthiness of `RUNWARE_KEY`; `now1` is the clock at the
`canGenerate` call and `now2` the clock at the follow-up database call
(the 403-path `getStatus` or the upsert). -/
def generateHandler (store : Store) (keyPresent : Bool)
    (prompt userId : Option String) (now1 now2 : Int) : GenResponse × Store :=
  if !jsTruthyStr prompt || !jsTruthyStr userId then
    (GenResponse.badRequest "Missing prompt or userId in request body.", store)
  else if !keyPresent then
    (GenResponse.misconfigured "Server misconfiguration: missing RUNWARE_API_KEY.",
     store)
  else
    let uid := userId.getD ""
    let c := canGenerate store now1 uid
    if !c.1 then
      let g := getStatus c.2 now2 uid
      (GenResponse.quotaExceeded
        "You have reached your limit. Please try again after the timer is finished."
        MAX_ATTEMPTS g.1, g.2)
    else
      let r := updateAttemptsAndGetStatus c.2 now2 uid
      (GenResponse.proceed MAX_ATTEMPTS r.1, r.2)

/-- One quota-tracker call in a trace, tagged with its user and clock. -/
inductive Op where
  | canGen (userId : String) (now : Int)
  | status (userId : String) (now : Int)
  | record (userId : String) (now : Int)

/-- The table left behind by one quota-tracker call. -/
def applyOp (store : Store) : Op → Store
  | .canGen u now => (canGenerate store now u).2
  | .status u now => (getStatus store now u).2
  | .record u now => (updateAttemptsAndGetStatus store now u).2

/-- The table left behind by a finite sequence of quota-tracker calls. -/
def runOps (store : Store) (ops : List Op) : Store := ops.foldl applyOp store

/-- The table left behind by a run of consecutive `RecordAttempt` calls for
one user at the given clock readings. -/
def recordMany (store : Store) (u : String) (times : List Int) : Store :=
  times.foldl (fun s t => (updateAttemptsAndGetStatus s t u).2) store

/-- Every gap between consecutive clock readings is below the cooldown. -/
def consecutiveGapsLt : List Int → Bool
  | a :: b :: rest => (decide (b - a < COOLDOWN_PERIOD)) && consecutiveGapsLt (b :: rest)
  | _ => true

/-! ### Basic lemmas about the embedding -/

theorem jsOrZero_eq (a : Int) : jsOrZero a = a := by
  unfold jsOrZero; split <;> simp_all

theorem Store.set_self (s : Store) (u : String) (r : Row) :
    Store.set s u r u = some r := by
  simp [Store.set]

theorem Store.set_ne (s : Store) (u v : String) (r : Row) (h : v ≠ u) :
    Store.set s u r v = s v := by
  simp [Store.set, h]

theorem cooldown_pos : (0 : Int) < COOLDOWN_PERIOD := by decide

/-- Branch equation: `getStatus` with no row. -/
theorem getStatus_none (s : Store) (now : Int) (u : String) (h : s u = none) :
    getStatus s now u =
      ({ attemptsUsed := 0, remainingAttempts := MAX_ATTEMPTS,
         msUntilReset := 0, resetAt := now }, s) := by
  simp [getStatus, h]

/-- Branch equation: `getStatus` on the lazy-reset branch. -/
theorem getStatus_reset (s : Store) (now : Int) (u : String) (r : Row)
    (h : s u = some r) (hc : COOLDOWN_PERIOD ≤ now - r.lastAttempt) :
    getStatus s now u =
      ({ attemptsUsed := 0, remainingAttempts := MAX_ATTEMPTS,
         msUntilReset := 0, resetAt := now },
       Store.set s u { r with attempts := 0 }) := by
  simp only [getStatus, h]
  rw [if_pos hc]

/-- Branch equation: `getStatus` inside the cooldown window. -/
theorem getStatus_window (s : Store) (now : Int) (u : String) (r : Row)
    (h : s u = some r) (hc : now - r.lastAttempt < COOLDOWN_PERIOD) :
    getStatus s now u =
      ({ attemptsUsed := r.attempts,
         remainingAttempts := max 0 (MAX_ATTEMPTS - r.attempts),
         msUntilReset := COOLDOWN_PERIOD - (now - r.lastAttempt),
         resetAt := now + (COOLDOWN_PERIOD - (now - r.lastAttempt)) }, s) := by
  simp only [getStatus, h]
  rw [if_neg (not_le.mpr hc)]
  simp [jsOrZero_eq]

/-- The allow decision of `canGenerate` is false exactly on a stored row
with an exhausted count still inside its cooldown window. -/
theorem canGenerate_fst_false_iff (s : Store) (now : Int) (u : String) :
    (canGenerate s now u).1 = false ↔
      ∃ r, s u = some r ∧ MAX_ATTEMPTS ≤ r.attempts ∧
        now - r.lastAttempt < COOLDOWN_PERIOD := by
  cases h : s u with
  | none => simp [canGenerate, h]
  | some r =>
    simp only [canGenerate, h]
    by_cases hc : COOLDOWN_PERIOD ≤ now - r.lastAttempt
    · rw [if_pos hc]
      simp only [Prod.fst]
      constructor
      · intro hfalse; exact absurd hfalse (by simp)
      · rintro ⟨r', hr', _, hlt⟩
        cases Option.some.inj hr'
        omega
    · rw [if_neg hc]
      simp only [Prod.fst, decide_eq_false_iff_not, not_lt, jsOrZero_eq]
      constructor
      · intro hle; exact ⟨r, rfl, hle, by omega⟩
      · rintro ⟨r', hr', hle, _⟩
        cases Option.some.inj hr'
        exact hle

/-- When `canGenerate` answers false it has not touched the table. -/
theorem canGenerate_false_snd (s : Store) (now : Int) (u : String)
    (h : (canGenerate s now u).1 = false) : (canGenerate s now u).2 = s := by
  cases hrow : s u with
  | none => simp [canGenerate, hrow] at h
  | some r =>
    simp only [canGenerate, hrow] at h ⊢
    by_cases hc : COOLDOWN_PERIOD ≤ now - r.lastAttempt
    · rw [if_pos hc] at h; simp at h
    · rw [if_neg hc]

/-- The table left by the upsert of `updateAttemptsAndGetStatus` on a user
with no row: the fresh row `(1, now)` survives the trailing `getStatus`. -/
theorem update_snd_none (s : Store) (now : Int) (u : String) (h : s u = none) :
    (updateAttemptsAndGetStatus s now u).2 =
      Store.set s u { attempts := 1, lastAttempt := now } := by
  simp only [updateAttemptsAndGetStatus, h]
  rw [getStatus_window (Store.set s u { attempts := 1, lastAttempt := now }) now u
        { attempts := 1, lastAttempt := now } (Store.set_self ..)
        (by simpa using cooldown_pos)]

/-- The table left by the upsert of `updateAttemptsAndGetStatus` on a user
with a row: the incremented row survives the trailing `getStatus`. -/
theorem update_snd_some (s : Store) (now : Int) (u : String) (r : Row)
    (h : s u = some r) :
    (updateAttemptsAndGetStatus s now u).2 =
      Store.set s u { attempts := r.attempts + 1, lastAttempt := now } := by
  simp only [updateAttemptsAndGetStatus, h]
  rw [getStatus_window (Store.set s u { attempts := r.attempts + 1, lastAttempt := now })
        now u { attempts := r.attempts + 1, lastAttempt := now } (Store.set_self ..)
        (by simpa using cooldown_pos)]

/-- A table holding exactly one row, used to evaluate theorems on concrete
inputs. -/
def singletonStore (u : String) (r : Row) : Store :=
  fun v => if v = u then some r else none

/-! ### Claims -/

/-- C1: `canGenerate(userId)` returns false exactly when a row exists for
`userId` with `attempts ≥ MAX_ATTEMPTS` and `now - lastAttempt <
COOLDOWN_PERIOD`; in every other case (no row, cooldown elapsed, or
`attempts < MAX_ATTEMPTS`) it returns true. -/
theorem canGenerate_false_characterization (s : Store) (now : Int) (u : String) :
    (canGenerate s now u).1 = false ↔
      ∃ r, s u = some r ∧ MAX_ATTEMPTS ≤ r.attempts ∧
        now - r.lastAttempt < COOLDOWN_PERIOD :=
  canGenerate_fst_false_iff s now u

/-- C2: `getStatus(userId)` in its three cases: with no row it returns the
fresh-window status; with a row whose cooldown has elapsed it zeroes the
stored `attempts` and returns the same zeroed shape with `resetAt = now`;
with a row inside the window it returns the in-window figures computed
from the row, with `resetAt = now + msUntilReset`. -/
theorem getStatus_three_cases (s : Store) (now : Int) (u : String) :
    (s u = none →
      getStatus s now u =
        ({ attemptsUsed := 0, remainingAttempts := MAX_ATTEMPTS,
           msUntilReset := 0, resetAt := now }, s)) ∧
    (∀ r, s u = some r → COOLDOWN_PERIOD ≤ now - r.lastAttempt →
      (getStatus s now u).1 =
        { attemptsUsed := 0, remainingAttempts := MAX_ATTEMPTS,
          msUntilReset := 0, resetAt := now } ∧
      (getStatus s now u).2 u =
        some { attempts := 0, lastAttempt := r.lastAttempt }) ∧
    (∀ r, s u = some r → now - r.lastAttempt < COOLDOWN_PERIOD →
      (getStatus s now u).1 =
        { attemptsUsed := r.attempts,
          remainingAttempts := max 0 (MAX_ATTEMPTS - r.attempts),
          msUntilReset := COOLDOWN_PERIOD - (now - r.lastAttempt),
          resetAt := now + (COOLDOWN_PERIOD - (now - r.lastAttempt)) } ∧
      (getStatus s now u).2 = s) := by
  refine ⟨fun h => getStatus_none s now u h, fun r h hc => ?_, fun r h hc => ?_⟩
  · rw [getStatus_reset s now u r h hc]
    exact ⟨rfl, Store.set_self ..⟩
  · rw [getStatus_window s now u r h hc]
    exact ⟨rfl, rfl⟩

/-- Witness for C2 at a concrete input: a user holding 20 attempts whose
last attempt is exactly one cooldown old is lazily reset. -/
theorem getStatus_three_cases_witness :
    (getStatus (singletonStore "alice" { attempts := 20, lastAttempt := 0 })
        86400000 "alice").1 =
      { attemptsUsed := 0, remainingAttempts := MAX_ATTEMPTS,
        msUntilReset := 0, resetAt := 86400000 } ∧
    (getStatus (singletonStore "alice" { attempts := 20, lastAttempt := 0 })
        86400000 "alice").2 "alice" =
      some { attempts := 0, lastAttempt := 0 } :=
  (getStatus_three_cases
      (singletonStore "alice" { attempts := 20, lastAttempt := 0 })
      86400000 "alice").2.1
    { attempts := 20, lastAttempt := 0 } (by decide) (by decide)

/-- C3: `updateAttemptsAndGetStatus(userId)` upserts — inserting
`(attempts = 1, lastAttempt = now)` when no row exists and otherwise
incrementing `attempts` by exactly 1 and setting `lastAttempt = now`
unconditionally, with no lazy reset of a stale counter — and then returns
the result of `getStatus(userId)` on the upserted table; the upserted row
is what a subsequent read sees. -/
theorem updateAttempts_upsert_then_status (s : Store) (now : Int) (u : String) :
    (s u = none →
      updateAttemptsAndGetStatus s now u =
        getStatus (Store.set s u { attempts := 1, lastAttempt := now }) now u ∧
      (updateAttemptsAndGetStatus s now u).2 u =
        some { attempts := 1, lastAttempt := now }) ∧
    (∀ r, s u = some r →
      updateAttemptsAndGetStatus s now u =
        getStatus (Store.set s u { attempts := r.attempts + 1, lastAttempt := now })
          now u ∧
      (updateAttemptsAndGetStatus s now u).2 u =
        some { attempts := r.attempts + 1, lastAttempt := now }) := by
  constructor
  · intro h
    refine ⟨by simp only [updateAttemptsAndGetStatus, h], ?_⟩
    rw [update_snd_none s now u h]
    exact Store.set_self ..
  · intro r h
    refine ⟨by simp only [updateAttemptsAndGetStatus, h], ?_⟩
    rw [update_snd_some s now u r h]
    exact Store.set_self ..

/-- Witness for C3 at a concrete input: even two cooldowns after the last
attempt, recording increments the stale count 3 to 4 rather than zeroing
it. -/
theorem updateAttempts_upsert_then_status_witness :
    updateAttemptsAndGetStatus (singletonStore "bob" { attempts := 3, lastAttempt := 0 })
        172800000 "bob" =
      getStatus
        (Store.set (singletonStore "bob" { attempts := 3, lastAttempt := 0 }) "bob"
          { attempts := 3 + 1, lastAttempt := 172800000 })
        172800000 "bob" ∧
    (updateAttemptsAndGetStatus (singletonStore "bob" { attempts := 3, lastAttempt := 0 })
        172800000 "bob").2 "bob" =
      some { attempts := 3 + 1, lastAttempt := 172800000 } :=
  (updateAttempts_upsert_then_status
      (singletonStore "bob" { attempts := 3, lastAttempt := 0 }) 172800000 "bob").2
    { attempts := 3, lastAttempt := 0 } (by decide)

/-- C4: for a user whose row has `lastAttempt ≤ now - COOLDOWN_PERIOD`,
`canGenerate` returns true and zeroes the stored `attempts`, `getStatus`
reports the zeroed-window status, and a subsequent read of the row sees
`attempts = 0` with `lastAttempt` untouched. -/
theorem cooldown_elapsed_resets (s : Store) (now : Int) (u : String) (r : Row)
    (h : s u = some r) (hc : r.lastAttempt ≤ now - COOLDOWN_PERIOD) :
    (canGenerate s now u).1 = true ∧
    (canGenerate s now u).2 u = some { attempts := 0, lastAttempt := r.lastAttempt } ∧
    (getStatus s now u).1 =
      { attemptsUsed := 0, remainingAttempts := MAX_ATTEMPTS,
        msUntilReset := 0, resetAt := now } ∧
    (getStatus s now u).2 u = some { attempts := 0, lastAttempt := r.lastAttempt } := by
  have hc' : COOLDOWN_PERIOD ≤ now - r.lastAttempt := by omega
  refine ⟨?_, ?_, ?_, ?_⟩
  · simp only [canGenerate, h]
    rw [if_pos hc']
  · simp only [canGenerate, h]
    rw [if_pos hc']
    exact Store.set_self ..
  · rw [getStatus_reset s now u r h hc']
  · rw [getStatus_reset s now u r h hc']
    exact Store.set_self ..

/-- Witness for C4 at a concrete input: the spec's scenario of a user with
20 attempts whose last attempt is 25 hours old. -/
theorem cooldown_elapsed_resets_witness :
    (canGenerate (singletonStore "carol" { attempts := 20, lastAttempt := 0 })
        90000000 "carol").1 = true ∧
    (canGenerate (singletonStore "carol" { attempts := 20, lastAttempt := 0 })
        90000000 "carol").2 "carol" = some { attempts := 0, lastAttempt := 0 } ∧
    (getStatus (singletonStore "carol" { attempts := 20, lastAttempt := 0 })
        90000000 "carol").1 =
      { attemptsUsed := 0, remainingAttempts := MAX_ATTEMPTS,
        msUntilReset := 0, resetAt := 90000000 } ∧
    (getStatus (singletonStore "carol" { attempts := 20, lastAttempt := 0 })
        90000000 "carol").2 "carol" = some { attempts := 0, lastAttempt := 0 } :=
  cooldown_elapsed_resets
    (singletonStore "carol" { attempts := 20, lastAttempt := 0 })
    90000000 "carol" { attempts := 20, lastAttempt := 0 } (by decide) (by decide)

/-- C6: in every branch of `getStatus`, the returned status satisfies
`resetAt = now + msUntilReset` for the `now` observed at the call. -/
theorem resetAt_eq_now_add_msUntilReset (s : Store) (now : Int) (u : String) :
    (getStatus s now u).1.resetAt = now + (getStatus s now u).1.msUntilReset := by
  cases h : s u with
  | none => rw [getStatus_none s now u h]; simp
  | some r =>
    by_cases hc : COOLDOWN_PERIOD ≤ now - r.lastAttempt
    · rw [getStatus_reset s now u r h hc]; simp
    · rw [getStatus_window s now u r h (not_le.mp hc)]

/-- C9: the lazy reset in `canGenerate` and `getStatus` zeroes only the
`attempts` field of the one affected user, leaving that row's
`lastAttempt` and every other user's row unchanged; hence the window is
not restarted by a read — a `getStatus` at the same or a later clock after
a `canGenerate`-triggered reset still reports `msUntilReset = 0` and
`resetAt` equal to its own clock. -/
theorem lazy_reset_frame (s : Store) (now : Int) (u : String) (r : Row)
    (h : s u = some r) (hc : COOLDOWN_PERIOD ≤ now - r.lastAttempt) :
    (canGenerate s now u).2 u = some { attempts := 0, lastAttempt := r.lastAttempt } ∧
    (∀ v, v ≠ u → (canGenerate s now u).2 v = s v) ∧
    (getStatus s now u).2 u = some { attempts := 0, lastAttempt := r.lastAttempt } ∧
    (∀ v, v ≠ u → (getStatus s now u).2 v = s v) ∧
    (∀ now', now ≤ now' →
      (getStatus (canGenerate s now u).2 now' u).1.msUntilReset = 0 ∧
      (getStatus (canGenerate s now u).2 now' u).1.resetAt = now') := by
  have hcg : (canGenerate s now u).2 =
      Store.set s u { r with attempts := 0 } := by
    simp only [canGenerate, h]
    rw [if_pos hc]
  refine ⟨?_, ?_, ?_, ?_, ?_⟩
  · rw [hcg]; exact Store.set_self ..
  · intro v hv; rw [hcg]; exact Store.set_ne s u v _ hv
  · rw [getStatus_reset s now u r h hc]; exact Store.set_self ..
  · intro v hv
    rw [getStatus_reset s now u r h hc]
    exact Store.set_ne s u v _ hv
  · intro now' hnow
    have h0 : (canGenerate s now u).2 u =
        some { attempts := 0, lastAttempt := r.lastAttempt } := by
      rw [hcg]; exact Store.set_self ..
    have hc' : COOLDOWN_PERIOD ≤
        now' - (Row.mk 0 r.lastAttempt).lastAttempt := by
      simp only []
      omega
    rw [getStatus_reset (canGenerate s now u).2 now' u _ h0 hc']
    exact ⟨rfl, rfl⟩

/-- Witness for C9 at a concrete input: a reset for "dan" leaves his
`lastAttempt` and another user's row alone, and a same-clock `getStatus`
still reports a closed window. -/
theorem lazy_reset_frame_witness :
    (canGenerate (singletonStore "dan" { attempts := 5, lastAttempt := 0 })
        86400000 "dan").2 "dan" = some { attempts := 0, lastAttempt := 0 } ∧
    (canGenerate (singletonStore "dan" { attempts := 5, lastAttempt := 0 })
        86400000 "dan").2 "zoe" =
      singletonStore "dan" { attempts := 5, lastAttempt := 0 } "zoe" ∧
    (getStatus
        (canGenerate (singletonStore "dan" { attempts := 5, lastAttempt := 0 })
          86400000 "dan").2 86400000 "dan").1.msUntilReset = 0 := by
  have h := lazy_reset_frame
    (singletonStore "dan" { attempts := 5, lastAttempt := 0 })
    86400000 "dan" { attempts := 5, lastAttempt := 0 } (by decide) (by decide)
  exact ⟨h.1, h.2.1 "zoe" (by decide), (h.2.2.2.2 86400000 (by decide)).1⟩

/-- On the denied path (fields present, key configured, `canGenerate`
false) the generate route answers the 403 body built from `getStatus` on
the untouched table, and leaves behind whatever that `getStatus` leaves. -/
theorem generateHandler_denied (s : Store) (prompt userId : Option String)
    (now1 now2 : Int)
    (hp : jsTruthyStr prompt = true) (hu : jsTruthyStr userId = true)
    (hdeny : (canGenerate s now1 (userId.getD "")).1 = false) :
    generateHandler s true prompt userId now1 now2 =
      (GenResponse.quotaExceeded
        "You have reached your limit. Please try again after the timer is finished."
        MAX_ATTEMPTS (getStatus s now2 (userId.getD "")).1,
       (getStatus s now2 (userId.getD "")).2) := by
  have hsnd := canGenerate_false_snd s now1 (userId.getD "") hdeny
  simp only [generateHandler, hp, hu, Bool.not_true, Bool.or_self, Bool.false_or,
    if_false, ite_false, hdeny, hsnd, Bool.not_false, if_true, ite_true]
  simp

/-- C7: a `POST /api/generate` with both `prompt` and `userId` present (and
the API key configured), for a user `canGenerate` denies, responds 403
with a non-empty error message together with exactly the `maxAttempts` and
status fields that `GET /api/status` would return for the same table and
clock. -/
theorem generate_quota_exceeded_403 (s : Store) (prompt userId : Option String)
    (now1 now2 : Int)
    (hp : jsTruthyStr prompt = true) (hu : jsTruthyStr userId = true)
    (hdeny : (canGenerate s now1 (userId.getD "")).1 = false) :
    ∃ err st,
      (generateHandler s true prompt userId now1 now2).1 =
        GenResponse.quotaExceeded err MAX_ATTEMPTS st ∧
      err ≠ "" ∧
      (statusHandler s now2 userId).1 = StatusResponse.ok MAX_ATTEMPTS st := by
  refine ⟨"You have reached your limit. Please try again after the timer is finished.",
    (getStatus s now2 (userId.getD "")).1, ?_, by decide, ?_⟩
  · rw [generateHandler_denied s prompt userId now1 now2 hp hu hdeny]
  · simp only [statusHandler, hu, Bool.not_true, if_false, ite_false]
    simp

/-- Witness for C7 at a concrete input: "erin" is at the cap inside her
window and her generate request is denied with the status body. -/
theorem generate_quota_exceeded_403_witness :
    ∃ err st,
      (generateHandler (singletonStore "erin" { attempts := 20, lastAttempt := 100 })
          true (some "a cat") (some "erin") 1000 1200).1 =
        GenResponse.quotaExceeded err MAX_ATTEMPTS st ∧
      err ≠ "" ∧
      (statusHandler (singletonStore "erin" { attempts := 20, lastAttempt := 100 })
          1200 (some "erin")).1 = StatusResponse.ok MAX_ATTEMPTS st :=
  generate_quota_exceeded_403
    (singletonStore "erin" { attempts := 20, lastAttempt := 100 })
    (some "a cat") (some "erin") 1000 1200 (by decide) (by decide) (by decide)

/-- C10: when the generate route takes the 403 path and the cooldown has
still not elapsed at the follow-up `getStatus` clock, the whole request
leaves the table exactly as it found it — no increment and no reset. -/
theorem reject_path_preserves_store (s : Store) (prompt userId : Option String)
    (now1 now2 : Int)
    (hp : jsTruthyStr prompt = true) (hu : jsTruthyStr userId = true)
    (hdeny : (canGenerate s now1 (userId.getD "")).1 = false)
    (hwin : ∀ r, s (userId.getD "") = some r →
      now2 - r.lastAttempt < COOLDOWN_PERIOD) :
    (generateHandler s true prompt userId now1 now2).1 =
      GenResponse.quotaExceeded
        "You have reached your limit. Please try again after the timer is finished."
        MAX_ATTEMPTS (getStatus s now2 (userId.getD "")).1 ∧
    (generateHandler s true prompt userId now1 now2).2 = s := by
  rw [generateHandler_denied s prompt userId now1 now2 hp hu hdeny]
  refine ⟨rfl, ?_⟩
  obtain ⟨r, hr, -, -⟩ :=
    (canGenerate_fst_false_iff s now1 (userId.getD "")).mp hdeny
  rw [getStatus_window s now2 (userId.getD "") r hr (hwin r hr)]

/-- Witness for C10 at a concrete input: the denied request for "fay"
hands back the very table it started from. -/
theorem reject_path_preserves_store_witness :
    (generateHandler (singletonStore "fay" { attempts := 20, lastAttempt := 0 })
        true (some "a dog") (some "fay") 1000 2000).1 =
      GenResponse.quotaExceeded
        "You have reached your limit. Please try again after the timer is finished."
        MAX_ATTEMPTS
        (getStatus (singletonStore "fay" { attempts := 20, lastAttempt := 0 })
          2000 "fay").1 ∧
    (generateHandler (singletonStore "fay" { attempts := 20, lastAttempt := 0 })
        true (some "a dog") (some "fay") 1000 2000).2 =
      singletonStore "fay" { attempts := 20, lastAttempt := 0 } :=
  reject_path_preserves_store
    (singletonStore "fay" { attempts := 20, lastAttempt := 0 })
    (some "a dog") (some "fay") 1000 2000 (by decide) (by decide) (by decide)
    (by
      intro r hr
      have hre : r = { attempts := 20, lastAttempt := 0 } := by
        have h0 : singletonStore "fay" { attempts := 20, lastAttempt := 0 }
            ((some "fay").getD "") = some { attempts := 20, lastAttempt := 0 } := by
          decide
        rw [h0] at hr
        exact (Option.some.inj hr).symm
      rw [hre]
      decide)

/-- Every row of the table carries a non-negative `attempts` count. -/
def attemptsNonneg (s : Store) : Prop :=
  ∀ u r, s u = some r → 0 ≤ r.attempts

theorem attemptsNonneg_set (s : Store) (u : String) (r : Row)
    (h : attemptsNonneg s) (hr : 0 ≤ r.attempts) :
    attemptsNonneg (Store.set s u r) := by
  intro v r' hv
  by_cases hvu : v = u
  · subst hvu
    rw [Store.set_self] at hv
    cases Option.some.inj hv
    exact hr
  · rw [Store.set_ne s u v r hvu] at hv
    exact h v r' hv

theorem attemptsNonneg_canGenerate (s : Store) (now : Int) (u : String)
    (h : attemptsNonneg s) : attemptsNonneg (canGenerate s now u).2 := by
  cases hrow : s u with
  | none => simpa only [canGenerate, hrow] using h
  | some r =>
    simp only [canGenerate, hrow]
    by_cases hc : COOLDOWN_PERIOD ≤ now - r.lastAttempt
    · rw [if_pos hc]
      exact attemptsNonneg_set s u _ h le_rfl
    · rw [if_neg hc]
      exact h

theorem attemptsNonneg_getStatus (s : Store) (now : Int) (u : String)
    (h : attemptsNonneg s) : attemptsNonneg (getStatus s now u).2 := by
  cases hrow : s u with
  | none => rw [getStatus_none s now u hrow]; exact h
  | some r =>
    by_cases hc : COOLDOWN_PERIOD ≤ now - r.lastAttempt
    · rw [getStatus_reset s now u r hrow hc]
      exact attemptsNonneg_set s u _ h le_rfl
    · rw [getStatus_window s now u r hrow (not_le.mp hc)]
      exact h

theorem attemptsNonneg_update (s : Store) (now : Int) (u : String)
    (h : attemptsNonneg s) : attemptsNonneg (updateAttemptsAndGetStatus s now u).2 := by
  cases hrow : s u with
  | none =>
    rw [update_snd_none s now u hrow]
    exact attemptsNonneg_set s u _ h (by show (0 : Int) ≤ 1; norm_num)
  | some r =>
    rw [update_snd_some s now u r hrow]
    exact attemptsNonneg_set s u _ h
      (by show (0 : Int) ≤ r.attempts + 1; have := h u r hrow; omega)

theorem attemptsNonneg_applyOp (s : Store) (op : Op) (h : attemptsNonneg s) :
    attemptsNonneg (applyOp s op) := by
  cases op with
  | canGen u now => exact attemptsNonneg_canGenerate s now u h
  | status u now => exact attemptsNonneg_getStatus s now u h
  | record u now => exact attemptsNonneg_update s now u h

theorem attemptsNonneg_runOps (ops : List Op) :
    ∀ s : Store, attemptsNonneg s → attemptsNonneg (runOps s ops) := by
  induction ops with
  | nil => intro s h; exact h
  | cons op ops ih =>
    intro s h
    exact ih (applyOp s op) (attemptsNonneg_applyOp s op h)

/-- C8: starting from the empty table, after any finite sequence of
`canGenerate`, `getStatus` and `updateAttemptsAndGetStatus` calls, every
stored row has a non-negative `attempts` count — the only writes are an
insert with 1, an increment by 1 and a reset to 0. -/
theorem trace_attempts_nonneg (ops : List Op) (u : String) (r : Row)
    (h : runOps emptyStore ops u = some r) : 0 ≤ r.attempts := by
  have hbase : attemptsNonneg emptyStore := by
    intro v r' hv
    simp [emptyStore] at hv
  exact attemptsNonneg_runOps ops emptyStore hbase u r h

/-- Witness for C8 at a concrete input: a one-call trace leaves "gil" with
count 1, which is non-negative. -/
theorem trace_attempts_nonneg_witness :
    (0 : Int) ≤ ({ attempts := 1, lastAttempt := 5 } : Row).attempts :=
  trace_attempts_nonneg [Op.record "gil" 5] "gil"
    { attempts := 1, lastAttempt := 5 } (by decide)

/-- Running consecutive `RecordAttempt` calls over a stored row adds one
per call to the count and leaves `lastAttempt` at the final clock, which
stays within one cooldown of the query clock when all gaps do. -/
theorem recordMany_row (u : String) (tq : Int) :
    ∀ (ts : List Int) (s : Store) (a t0 : Int),
      s u = some { attempts := a, lastAttempt := t0 } →
      consecutiveGapsLt (t0 :: (ts ++ [tq])) = true →
      ∃ tN, recordMany s u ts u =
          some { attempts := a + (ts.length : Int), lastAttempt := tN } ∧
        tq - tN < COOLDOWN_PERIOD := by
  intro ts
  induction ts with
  | nil =>
    intro s a t0 h hg
    refine ⟨t0, ?_, ?_⟩
    · simpa [recordMany] using h
    · simp only [List.nil_append, consecutiveGapsLt, Bool.and_eq_true,
        decide_eq_true_eq] at hg
      exact hg.1
  | cons t ts ih =>
    intro s a t0 h hg
    have hg' : consecutiveGapsLt (t :: (ts ++ [tq])) = true := by
      simp only [List.cons_append, consecutiveGapsLt, Bool.and_eq_true] at hg
      exact hg.2
    have hs1 : (updateAttemptsAndGetStatus s t u).2 u =
        some { attempts := a + 1, lastAttempt := t } := by
      rw [update_snd_some s t u _ h]
      exact Store.set_self ..
    obtain ⟨tN, h1, h2⟩ := ih ((updateAttemptsAndGetStatus s t u).2) (a + 1) t hs1 hg'
    refine ⟨tN, ?_, h2⟩
    have hfold : recordMany s u (t :: ts) =
        recordMany ((updateAttemptsAndGetStatus s t u).2) u ts := rfl
    rw [hfold, h1]
    have hlen : a + 1 + (ts.length : Int) = a + ((t :: ts).length : Int) := by
      simp only [List.length_cons]
      push_cast
      ring
    rw [hlen]

/-- C5: starting from a user with no row, after N consecutive
`RecordAttempt` calls with N ≤ MAX_ATTEMPTS and every gap between
consecutive calls (including the final status query) below
`COOLDOWN_PERIOD`, `getStatus` reports `attemptsUsed = N` and
`remainingAttempts = MAX_ATTEMPTS - N`. -/
theorem consecutive_records_status (s : Store) (u : String) (times : List Int)
    (tq : Int) (h0 : s u = none)
    (hgaps : consecutiveGapsLt (times ++ [tq]) = true)
    (hN : (times.length : Int) ≤ MAX_ATTEMPTS) :
    (getStatus (recordMany s u times) tq u).1.attemptsUsed =
      (times.length : Int) ∧
    (getStatus (recordMany s u times) tq u).1.remainingAttempts =
      MAX_ATTEMPTS - (times.length : Int) := by
  cases times with
  | nil =>
    have hnil : recordMany s u [] = s := rfl
    rw [hnil, getStatus_none s tq u h0]
    constructor <;> simp
  | cons t ts =>
    have hs1 : (updateAttemptsAndGetStatus s t u).2 u =
        some { attempts := 1, lastAttempt := t } := by
      rw [update_snd_none s t u h0]
      exact Store.set_self ..
    have hg : consecutiveGapsLt (t :: (ts ++ [tq])) = true := hgaps
    obtain ⟨tN, h1, h2⟩ := recordMany_row u tq ts _ 1 t hs1 hg
    have hfold : recordMany s u (t :: ts) =
        recordMany ((updateAttemptsAndGetStatus s t u).2) u ts := rfl
    rw [hfold, getStatus_window _ tq u _ h1 h2]
    simp only [List.length_cons] at hN ⊢
    constructor
    · show (1 : Int) + (ts.length : Int) = ((ts.length + 1 : Nat) : Int)
      push_cast
      ring
    · show max 0 (MAX_ATTEMPTS - (1 + (ts.length : Int))) =
        MAX_ATTEMPTS - ((ts.length + 1 : Nat) : Int)
      rw [show MAX_ATTEMPTS = 20 from rfl] at hN ⊢
      push_cast at hN ⊢
      omega

/-- Witness for C5 at a concrete input: three back-to-back records for a
fresh "alice" leave her at 3 used and 17 remaining. -/
theorem consecutive_records_status_witness :
    (getStatus (recordMany emptyStore "alice" [1, 2, 3]) 10 "alice").1.attemptsUsed =
      (([1, 2, 3] : List Int).length : Int) ∧
    (getStatus (recordMany emptyStore "alice" [1, 2, 3]) 10 "alice").1.remainingAttempts =
      MAX_ATTEMPTS - (([1, 2, 3] : List Int).length : Int) :=
  consecutive_records_status emptyStore "alice" [1, 2, 3] 10 rfl (by decide) (by decide)

end DreamMaker
